import Mathlib

/-!
Verification of the `HierarchicalMenu` widget of
`packages/react-instantsearch/src/widgets/HierarchicalMenu.js`.

We shallowly embed the widget's render function and the JavaScript object
semantics it relies on (JSX attribute/spread merging, property access), and
state the spec's claims about it.  Collaborators of the widget that live in
this repository but outside the provided sources (`BaseWidget`,
`classNames`, `connectHierarchicalMenu`) are modelled from the
specification, each marked `Modelled from the spec:` in its doc comment.
-/

/-- A JavaScript value as it occurs in the widget's props: primitive
values, string lists, opaque renderable elements (`vElem`, identified by a
tag), class-name functions (`vClassFn`, carrying the actual mapping from
theme region to class name) and other opaque function values (`vFun`). -/
inductive JSValue where
  | vStr : String → JSValue
  | vNum : Int → JSValue
  | vBool : Bool → JSValue
  | vNull : JSValue
  | vUndefined : JSValue
  | vStrList : List String → JSValue
  | vElem : Nat → JSValue
  | vClassFn : (String → String) → JSValue
  | vFun : Nat → JSValue

/-- A JavaScript object in insertion order; a later binding of the same key
overrides an earlier one, as with `{ a: x, ...props }`. -/
def JSObject : Type := List (String × JSValue)

/-- Whether the object has a binding for `key`. -/
def objHasKey : List (String × JSValue) → String → Bool
  | [], _ => false
  | (k, _) :: rest, key => k == key || objHasKey rest key

/-- Property access `o[key]`: the last binding of `key` wins (spread
semantics); a missing property reads as `undefined`. -/
def objGet : List (String × JSValue) → String → JSValue
  | [], _ => JSValue.vUndefined
  | (k, v) :: rest, key =>
    if objHasKey rest key then objGet rest key
    else if k == key then v else JSValue.vUndefined

/-- A React element: component name, props object, children. -/
inductive RElem where
  | elem (component : String) (props : List (String × JSValue))
      (children : List RElem) : RElem

def RElem.component : RElem → String
  | .elem c _ _ => c

def RElem.props : RElem → List (String × JSValue)
  | .elem _ p _ => p

def RElem.children : RElem → List RElem
  | .elem _ _ cs => cs

/-- Modelled from the spec: the class-name factory of
`components/classNames.js` (imported by the widget but not among the
provided sources).  Per the spec it "applies a namespaced class-name prefix
to every themable region (derived deterministically from the widget's
name, e.g. concatenation of a fixed prefix and region key)", yielding
identifiers of the form `ais-<WidgetName>-<region>`. -/
def classNames (block : String) : String → String :=
  fun region => "ais-" ++ block ++ "-" ++ region

/-- `const cx = classNames('HierarchicalMenu');` — module-level constant of
`HierarchicalMenu.js` line 8. -/
def cx : String → String := classNames "HierarchicalMenu"

/-- The `Widget` render function of `HierarchicalMenu.js` lines 103–107:

```
const Widget = props => (
  <BaseWidget cx={cx} header={props.header} footer={props.footer}>
    <HierarchicalMenuComponent cx={cx} {...props} />
  </BaseWidget>
);
```

JSX semantics: an explicit attribute followed by a spread builds the props
object `{cx: cx, ...props}`, in which a `cx` binding inside `props`
overrides the explicit one (last-wins, see `objGet`). -/
def Widget (props : List (String × JSValue)) : RElem :=
  .elem "BaseWidget"
    [("cx", JSValue.vClassFn cx),
     ("header", objGet props "header"),
     ("footer", objGet props "footer")]
    [.elem "HierarchicalMenuComponent"
      (("cx", JSValue.vClassFn cx) :: props) []]

/-- The single child of the rendered chrome: the inner hierarchical-list
renderer element. -/
def innerElemOf (props : List (String × JSValue)) : RElem :=
  ((Widget props).children).headD (.elem "" [] [])

/-- The props object the inner renderer receives. -/
def innerPropsOf (props : List (String × JSValue)) :
    List (String × JSValue) :=
  (innerElemOf props).props

-- Basic object lemmas ------------------------------------------------------

theorem objGet_of_not_hasKey (o : List (String × JSValue)) (key : String)
    (h : objHasKey o key = false) : objGet o key = JSValue.vUndefined := by
  induction o with
  | nil => rfl
  | cons p rest ih =>
    obtain ⟨k, v⟩ := p
    simp only [objHasKey, Bool.or_eq_false_iff] at h
    simp only [objGet, h.2, if_false, h.1, ih h.2]
    simp [h.1]

theorem objGet_cons_ne (k key : String) (v : JSValue)
    (o : List (String × JSValue)) (h : k ≠ key) :
    objGet ((k, v) :: o) key = objGet o key := by
  simp only [objGet]
  by_cases hk : objHasKey o key
  · simp [hk]
  · simp only [Bool.not_eq_true] at hk
    simp [hk, objGet_of_not_hasKey o key hk, h]

theorem objHasKey_append (l₁ l₂ : List (String × JSValue)) (key : String) :
    objHasKey (l₁ ++ l₂) key = (objHasKey l₁ key || objHasKey l₂ key) := by
  induction l₁ with
  | nil => simp [objHasKey]
  | cons p rest ih =>
    obtain ⟨k, v⟩ := p
    simp [objHasKey, ih, Bool.or_assoc]

theorem objGet_append (l₁ l₂ : List (String × JSValue)) (key : String) :
    objGet (l₁ ++ l₂) key =
      if objHasKey l₂ key then objGet l₂ key else objGet l₁ key := by
  induction l₁ with
  | nil =>
    by_cases h : objHasKey l₂ key
    · simp [h]
    · simp only [List.nil_append, h, Bool.false_eq_true, if_false]
      simp only [Bool.not_eq_true] at h
      exact objGet_of_not_hasKey l₂ key h
  | cons p rest ih =>
    obtain ⟨k, v⟩ := p
    simp only [List.cons_append, objGet, List.append_eq,
      objHasKey_append rest l₂ key, ih]
    by_cases h2 : objHasKey l₂ key <;> by_cases hr : objHasKey rest key <;>
      simp [h2, hr]

-- Theming keys --------------------------------------------------------------

/-- The theming class identifiers documented in `HierarchicalMenu.js`
lines 62–75 (the `themeKey` doc comments), in source order. -/
def documentedThemeKeys : List String :=
  ["ais-HierarchicalMenu",
   "ais-HierarchicalMenu-header",
   "ais-HierarchicalMenu-body",
   "ais-HierarchicalMenu-searchBox",
   "ais-HierarchicalMenu-list",
   "ais-HierarchicalMenu-list--lvl0",
   "ais-HierarchicalMenu-list--lvl1",
   "ais-HierarchicalMenu-item",
   "ais-HierarchicalMenu-item--selected",
   "ais-HierarchicalMenu-item--parent",
   "ais-HierarchicalMenu-link",
   "ais-HierarchicalMenu-label",
   "ais-HierarchicalMenu-count",
   "ais-HierarchicalMenu-footer"]

/-- The theming set exactly as the spec's words enumerate it, for the
refinement comparison of claim C2: "root, header, body, one list key per
level, item, selected item, parent item, link, label, count, and footer",
the per-level list keys instantiated at the levels the source documents
(lvl0, lvl1). -/
def specThemeKeys : List String :=
  ["ais-HierarchicalMenu",
   "ais-HierarchicalMenu-header",
   "ais-HierarchicalMenu-body",
   "ais-HierarchicalMenu-list--lvl0",
   "ais-HierarchicalMenu-list--lvl1",
   "ais-HierarchicalMenu-item",
   "ais-HierarchicalMenu-item--selected",
   "ais-HierarchicalMenu-item--parent",
   "ais-HierarchicalMenu-link",
   "ais-HierarchicalMenu-label",
   "ais-HierarchicalMenu-count",
   "ais-HierarchicalMenu-footer"]

/-- The spec's enumeration amended by the two identifiers the source also
documents: the generic list key and the search-box key. -/
def specThemeKeysAmended : List String :=
  specThemeKeys ++ ["ais-HierarchicalMenu-list", "ais-HierarchicalMenu-searchBox"]

-- Outer chrome (BaseWidget) -------------------------------------------------

/-- A visual region of the rendered chrome. -/
inductive Region where
  | headerRegion : JSValue → Region
  | bodyRegion : List RElem → Region
  | footerRegion : JSValue → Region

def Region.isHeader : Region → Bool
  | .headerRegion _ => true
  | _ => false

def Region.isFooter : Region → Bool
  | .footerRegion _ => true
  | _ => false

/-- Whether an optional prop value counts as provided: an absent prop reads
as `undefined`, and an explicit `null` likewise supplies nothing to
render. -/
def isProvided : JSValue → Bool
  | .vUndefined => false
  | .vNull => false
  | _ => true

/-- Modelled from the spec: the outer chrome `BaseWidget`
(`widgets/BaseWidget.js`, imported by the widget but not among the provided
sources).  Per the spec it renders `header` as opaque passthrough content
before the body if provided, then the body, then `footer` after the body if
provided; an absent header or footer emits no region at all. -/
def renderBaseWidget (header footer : JSValue) (children : List RElem) :
    List Region :=
  (if isProvided header then [Region.headerRegion header] else []) ++
  [Region.bodyRegion children] ++
  (if isProvided footer then [Region.footerRegion footer] else [])

/-- Rendering an element through the chrome, reading `header` and `footer`
from the props the element was given. -/
def renderChrome (e : RElem) : List Region :=
  renderBaseWidget (objGet e.props "header") (objGet e.props "footer")
    e.children

/-- The full region list produced by one render of the widget. -/
def renderWidgetRegions (props : List (String × JSValue)) : List Region :=
  renderChrome (Widget props)

-- Prop validation -----------------------------------------------------------

/-- The node checker of the external `prop-types` package
(`PropTypes.node`): accepts renderable content — strings, numbers,
elements, lists, booleans, and null/undefined for an optional prop — and
rejects function values, which are not renderable. -/
def isRenderableNode : JSValue → Bool
  | .vClassFn _ => false
  | .vFun _ => false
  | _ => true

/-- The keys of `Widget.propTypes` (`HierarchicalMenu.js` lines 109–112):
the only props the widget itself declares checkers for, each of them
`PropTypes.node`. -/
def widgetPropTypesKeys : List String := ["header", "footer"]

/-- Render-time prop validation of `Widget.propTypes`: each declared key's
value must satisfy its node checker; no other prop is examined.  Returns
the offending keys. -/
def validateWidgetProps (props : List (String × JSValue)) : List String :=
  (if isRenderableNode (objGet props "header") then [] else ["header"]) ++
  (if isRenderableNode (objGet props "footer") then [] else ["footer"])

/-- The render pass as the spec describes it: prop-type mismatches are
surfaced to the host as a configuration error fatal to the pass; otherwise
the widget's output is produced. -/
def renderChecked (props : List (String × JSValue)) :
    Except (List String) RElem :=
  match validateWidgetProps props with
  | [] => Except.ok (Widget props)
  | errs => Except.error errs

-- Statelessness -------------------------------------------------------------

/-- An ambient mutable render environment (component state, external
stores).  The `Widget` source body references only its `props` argument and
the module constant `cx`. -/
structure RenderState where
  store : List (String × JSValue)

/-- `Widget` as a state transformer over the ambient environment: since the
source body contains no state read or write and no other effectful
operation, its embedding returns the pure output and passes the environment
through untouched. -/
def renderWithState (props : List (String × JSValue)) (s : RenderState) :
    RElem × RenderState :=
  (Widget props, s)

-- Connector defaults --------------------------------------------------------

/-- Modelled from the spec: the configuration defaults applied by
`connectHierarchicalMenu` (imported on line 114 of `HierarchicalMenu.js`
but not among the provided sources): `showMore` false, `limitMin` 10,
`limitMax` 20, `separator` ">", `showParentLevel` true; `rootPath` has no
default and stays absent. -/
def hmDefaultProps : List (String × JSValue) :=
  [("showMore", JSValue.vBool false),
   ("limitMin", JSValue.vNum 10),
   ("limitMax", JSValue.vNum 20),
   ("separator", JSValue.vStr ">"),
   ("showParentLevel", JSValue.vBool true)]

/-- Default application: caller props override the defaults. -/
def resolveProps (props : List (String × JSValue)) :
    List (String × JSValue) :=
  hmDefaultProps ++ props

/-- Modelled from the spec: the item display limit — `limitMax` is "used
only if showMore is true", otherwise `limitMin` applies. -/
def appliedLimit (showMoreFlag : Bool) (limitMin limitMax : Int) : Int :=
  if showMoreFlag then limitMax else limitMin

/-- The configuration props the widget forwards without any check of its
own (every documented prop other than `header` and `footer`). -/
def otherWidgetProps : List String :=
  ["attributes", "showMore", "limitMin", "limitMax", "separator",
   "rootPath", "showParentLevel", "defaultRefinement", "transformItems"]

-- Claim C1 ------------------------------------------------------------------

/-- C1 counterexample: with a props object carrying a `header` field, the
inner renderer's props do contain that `header` field (and likewise
`footer`), because the spread forwards the whole props object — refuting
the claim that header and footer are not passed to the inner renderer. -/
theorem c1_counterexample :
    objGet (innerPropsOf
      [("attributes", JSValue.vStrList ["category"]),
       ("header", JSValue.vElem 0), ("footer", JSValue.vElem 1)])
      "header" = JSValue.vElem 0 ∧
    objGet (innerPropsOf
      [("attributes", JSValue.vStrList ["category"]),
       ("header", JSValue.vElem 0), ("footer", JSValue.vElem 1)])
      "footer" = JSValue.vElem 1 ∧
    JSValue.vElem 0 ≠ JSValue.vUndefined := by
  refine ⟨rfl, rfl, ?_⟩
  intro h
  exact JSValue.noConfusion h

/-- C1 (amended): the Widget passes to the inner renderer the class-name
function together with all fields of props — including `header` and
`footer`, since the spread forwards the whole props object — while the
outer chrome receives the class-name function plus the header and footer
fields. -/
theorem c1_inner_receives_cx_and_all_props
    (props : List (String × JSValue)) (k : String) (hk : k ≠ "cx") :
    innerPropsOf props = ("cx", JSValue.vClassFn cx) :: props ∧
    objGet (innerPropsOf props) k = objGet props k ∧
    objGet (Widget props).props "header" = objGet props "header" ∧
    objGet (Widget props).props "footer" = objGet props "footer" := by
  refine ⟨rfl, ?_, rfl, rfl⟩
  show objGet (("cx", JSValue.vClassFn cx) :: props) k = objGet props k
  exact objGet_cons_ne _ _ _ _ (fun h => hk h.symm)

/-- Witness for the amended C1 at a concrete input. -/
theorem c1_inner_receives_cx_and_all_props_witness :
    objGet (innerPropsOf [("header", JSValue.vElem 2)]) "header" =
      objGet [("header", JSValue.vElem 2)] "header" :=
  (c1_inner_receives_cx_and_all_props [("header", JSValue.vElem 2)]
    "header" (by decide)).2.1

-- Claim C2 ------------------------------------------------------------------

/-- C2 counterexample: the source documents the theme keys
`ais-HierarchicalMenu-searchBox` and the generic `ais-HierarchicalMenu-list`,
neither of which is in the set the claim enumerates — so theme keys outside
the claimed set exist. -/
theorem c2_counterexample :
    "ais-HierarchicalMenu-searchBox" ∈ documentedThemeKeys ∧
    "ais-HierarchicalMenu-searchBox" ∉ specThemeKeys ∧
    "ais-HierarchicalMenu-list" ∈ documentedThemeKeys ∧
    "ais-HierarchicalMenu-list" ∉ specThemeKeys := by
  decide

/-- C2 (amended): the documented theming identifiers are exactly the
claim's enumerated set plus a generic list key and a search-box key (same
members on both sides). -/
theorem c2_theme_keys :
    (∀ k ∈ documentedThemeKeys, k ∈ specThemeKeysAmended) ∧
    (∀ k ∈ specThemeKeysAmended, k ∈ documentedThemeKeys) := by
  constructor <;> decide

/-- Witness for the amended C2 at a concrete key. -/
theorem c2_theme_keys_witness :
    "ais-HierarchicalMenu-footer" ∈ specThemeKeysAmended :=
  c2_theme_keys.1 "ais-HierarchicalMenu-footer" (by decide)

-- Claim C3 ------------------------------------------------------------------

/-- C3: in every render the body region sits at index 1 when a header is
provided and at index 0 otherwise; a provided header occupies index 0
(before the body) and a provided footer the index right after the body; an
absent header (resp. footer) emits no header (resp. footer) region. -/
theorem c3_header_before_body_footer_after
    (props : List (String × JSValue)) :
    (renderWidgetRegions props).get?
        (if isProvided (objGet props "header") then 1 else 0) =
      some (Region.bodyRegion [innerElemOf props]) ∧
    (isProvided (objGet props "header") = true →
      (renderWidgetRegions props).get? 0 =
        some (Region.headerRegion (objGet props "header"))) ∧
    (isProvided (objGet props "header") = false →
      ∀ r ∈ renderWidgetRegions props, r.isHeader = false) ∧
    (isProvided (objGet props "footer") = true →
      (renderWidgetRegions props).get?
          ((if isProvided (objGet props "header") then 1 else 0) + 1) =
        some (Region.footerRegion (objGet props "footer"))) ∧
    (isProvided (objGet props "footer") = false →
      ∀ r ∈ renderWidgetRegions props, r.isFooter = false) := by
  have hrw : renderWidgetRegions props =
      renderBaseWidget (objGet props "header") (objGet props "footer")
        [innerElemOf props] := rfl
  rw [hrw]
  by_cases hh : isProvided (objGet props "header") <;>
    by_cases hf : isProvided (objGet props "footer") <;>
      simp [renderBaseWidget, hh, hf, Region.isHeader, Region.isFooter]

/-- Witness for C3 at a concrete input with a header and no footer. -/
theorem c3_header_before_body_footer_after_witness :
    (renderWidgetRegions [("header", JSValue.vElem 7)]).get? 0 =
      some (Region.headerRegion (JSValue.vElem 7)) :=
  (c3_header_before_body_footer_after [("header", JSValue.vElem 7)]).2.1 rfl

-- Claim C4 ------------------------------------------------------------------

/-- C4 counterexample: with a caller-supplied `cx` prop, the outer chrome
still receives the widget's own class-name function but the inner renderer
receives the caller's — two different functions — refuting the claim that
the same single class-name function reaches both for every props object. -/
theorem c4_counterexample :
    objGet (Widget [("cx", JSValue.vClassFn fun _ => "caller")]).props
        "cx" = JSValue.vClassFn cx ∧
    objGet (innerPropsOf [("cx", JSValue.vClassFn fun _ => "caller")])
        "cx" = JSValue.vClassFn (fun _ => "caller") ∧
    JSValue.vClassFn (fun _ => "caller") ≠ JSValue.vClassFn cx := by
  refine ⟨rfl, rfl, ?_⟩
  intro h
  have hfn : (fun _ => "caller") = cx := by
    simpa [JSValue.vClassFn.injEq] using h
  have hx : "caller" = cx "x" := congrFun hfn "x"
  exact absurd hx (by decide)

/-- C4 (amended): the class-name function maps every region to
`ais-HierarchicalMenu-` followed by the region key, and is written as the
`cx` attribute of both the outer chrome and the inner renderer; whenever
the caller supplies no `cx` prop, both effectively receive this same
function (a caller-supplied `cx` prop overrides it on the inner renderer
only). -/
theorem c4_classname_derivation_and_forwarding
    (props : List (String × JSValue)) (h : objHasKey props "cx" = false) :
    (∀ region, cx region = "ais-HierarchicalMenu-" ++ region) ∧
    objGet (Widget props).props "cx" = JSValue.vClassFn cx ∧
    objGet (innerPropsOf props) "cx" = JSValue.vClassFn cx := by
    refine ⟨fun region => rfl, rfl, ?_⟩
    show objGet (("cx", JSValue.vClassFn cx) :: props) "cx" =
      JSValue.vClassFn cx
    simp [objGet, h]

/-- Witness for the amended C4 at a concrete input. -/
theorem c4_classname_derivation_and_forwarding_witness :
    objGet (innerPropsOf [("attributes", JSValue.vStrList ["category"])])
      "cx" = JSValue.vClassFn cx :=
  (c4_classname_derivation_and_forwarding
    [("attributes", JSValue.vStrList ["category"])] (by decide)).2.2

-- Claim C5 ------------------------------------------------------------------

/-- C5: the checked render pass fails exactly when `header` or `footer` is
not renderable content, and every other props object renders successfully
to the widget's output — the widget has no other failure mode of its
own. -/
theorem c5_validation_exactly_header_footer
    (props : List (String × JSValue)) :
    ((∃ e, renderChecked props = Except.error e) ↔
      (isRenderableNode (objGet props "header") = false ∨
       isRenderableNode (objGet props "footer") = false)) ∧
    ((isRenderableNode (objGet props "header") = true ∧
      isRenderableNode (objGet props "footer") = true) →
        renderChecked props = Except.ok (Widget props)) := by
  by_cases h1 : isRenderableNode (objGet props "header") <;>
    by_cases h2 : isRenderableNode (objGet props "footer") <;>
      simp [renderChecked, validateWidgetProps, h1, h2]

/-- Witness for C5 at a concrete well-formed input. -/
theorem c5_validation_exactly_header_footer_witness :
    renderChecked [("header", JSValue.vElem 3)] =
      Except.ok (Widget [("header", JSValue.vElem 3)]) :=
  (c5_validation_exactly_header_footer [("header", JSValue.vElem 3)]).2
    ⟨rfl, rfl⟩

-- Claim C6 ------------------------------------------------------------------

/-- C6: the render is stateless and deterministic — the output does not
depend on the ambient render environment (so two renders with the same
props produce the same output), and the environment passes through
unchanged (no side effect). -/
theorem c6_stateless_deterministic (props : List (String × JSValue))
    (s₁ s₂ : RenderState) :
    (renderWithState props s₁).1 = (renderWithState props s₂).1 ∧
    (renderWithState props s₁).2 = s₁ :=
  ⟨rfl, rfl⟩

-- Claim C7 ------------------------------------------------------------------

/-- C7: when the corresponding props are omitted, the resolved
configuration has `showMore` false, `limitMin` 10, `limitMax` 20,
`separator` ">", no `rootPath`, and `showParentLevel` true; and with
`showMore` false the applied limit never depends on `limitMax`. -/
theorem c7_connector_defaults (props : List (String × JSValue)) :
    (objHasKey props "showMore" = false →
      objGet (resolveProps props) "showMore" = JSValue.vBool false) ∧
    (objHasKey props "limitMin" = false →
      objGet (resolveProps props) "limitMin" = JSValue.vNum 10) ∧
    (objHasKey props "limitMax" = false →
      objGet (resolveProps props) "limitMax" = JSValue.vNum 20) ∧
    (objHasKey props "separator" = false →
      objGet (resolveProps props) "separator" = JSValue.vStr ">") ∧
    (objHasKey props "rootPath" = false →
      objGet (resolveProps props) "rootPath" = JSValue.vUndefined) ∧
    (objHasKey props "showParentLevel" = false →
      objGet (resolveProps props) "showParentLevel" = JSValue.vBool true) ∧
    (∀ mn mx mx', appliedLimit false mn mx = appliedLimit false mn mx') := by
  refine ⟨?_, ?_, ?_, ?_, ?_, ?_, fun mn mx mx' => rfl⟩ <;>
    · intro h
      rw [resolveProps, objGet_append, h, if_neg (by simp)]
      rfl

/-- Witness for C7 at the empty props object. -/
theorem c7_connector_defaults_witness :
    objGet (resolveProps []) "showMore" = JSValue.vBool false :=
  (c7_connector_defaults []).1 rfl

-- Claim C8 ------------------------------------------------------------------

/-- C8: when the caller supplies a `cx` prop, the inner renderer receives
the caller's class-name function (the spread overrides the explicit
attribute) while the outer chrome still receives the widget's own one; when
the two functions differ, the two regions use different class-name
functions. -/
theorem c8_caller_cx_overrides_inner (props : List (String × JSValue))
    (f : String → String)
    (h : objGet props "cx" = JSValue.vClassFn f) :
    objGet (innerPropsOf props) "cx" = JSValue.vClassFn f ∧
    objGet (Widget props).props "cx" = JSValue.vClassFn cx ∧
    (f ≠ cx →
      objGet (innerPropsOf props) "cx" ≠
        objGet (Widget props).props "cx") := by
  have hk : objHasKey props "cx" = true := by
    by_cases hk : objHasKey props "cx"
    · exact hk
    · exfalso
      rw [objGet_of_not_hasKey props "cx" (by simpa using hk)] at h
      exact JSValue.noConfusion h
  have hinner : objGet (innerPropsOf props) "cx" = JSValue.vClassFn f := by
    show objGet (("cx", JSValue.vClassFn cx) :: props) "cx" =
      JSValue.vClassFn f
    simp [objGet, hk, h]
  refine ⟨hinner, rfl, fun hne => ?_⟩
  rw [hinner]
  intro heq
  have h2 : JSValue.vClassFn f = JSValue.vClassFn cx := heq
  exact hne (by simpa [JSValue.vClassFn.injEq] using h2)

/-- Witness for C8 at a concrete caller-supplied class-name function. -/
theorem c8_caller_cx_overrides_inner_witness :
    objGet (innerPropsOf [("cx", JSValue.vClassFn fun r => r)]) "cx" =
      JSValue.vClassFn (fun r => r) :=
  (c8_caller_cx_overrides_inner [("cx", JSValue.vClassFn fun r => r)]
    (fun r => r) rfl).1

-- Claim C9 ------------------------------------------------------------------

/-- C9: the widget's own prop validation declares checkers only for
`header` and `footer`; every other documented prop is forwarded to the
inner renderer unchanged, and adding such a prop (with any value) never
changes the validation outcome. -/
theorem c9_only_header_footer_checked (props : List (String × JSValue))
    (k : String) (hk : k ∈ otherWidgetProps) :
    widgetPropTypesKeys = ["header", "footer"] ∧
    objGet (innerPropsOf props) k = objGet props k ∧
    ∀ v, validateWidgetProps (props ++ [(k, v)]) =
      validateWidgetProps props := by
  have hne : k ≠ "cx" ∧ k ≠ "header" ∧ k ≠ "footer" :=
    (by decide :
      ∀ x ∈ otherWidgetProps, x ≠ "cx" ∧ x ≠ "header" ∧ x ≠ "footer") k hk
  refine ⟨rfl, ?_, ?_⟩
  · show objGet (("cx", JSValue.vClassFn cx) :: props) k = objGet props k
    exact objGet_cons_ne _ _ _ _ (fun h => hne.1 h.symm)
  · intro v
    have hh : objGet (props ++ [(k, v)]) "header" =
        objGet props "header" := by
      rw [objGet_append, if_neg (by simp [objHasKey, hne.2.1])]
    have hf : objGet (props ++ [(k, v)]) "footer" =
        objGet props "footer" := by
      rw [objGet_append, if_neg (by simp [objHasKey, hne.2.2])]
    simp [validateWidgetProps, hh, hf]

/-- Witness for C9 at a concrete input and prop key. -/
theorem c9_only_header_footer_checked_witness :
    objGet (innerPropsOf [("attributes", JSValue.vStrList ["category"])])
        "attributes" =
      objGet [("attributes", JSValue.vStrList ["category"])]
        "attributes" :=
  (c9_only_header_footer_checked
    [("attributes", JSValue.vStrList ["category"])] "attributes"
    (by decide)).2.1

-- Claim C10 -----------------------------------------------------------------

/-- C10: the class-name mapping is a module-level constant derived from the
fixed string "HierarchicalMenu": every render of every instance hands the
outer chrome the very same mapping, which sends each region to
`ais-HierarchicalMenu-` followed by the region key. -/
theorem c10_cx_module_constant_invariant
    (p q : List (String × JSValue)) :
    objGet (Widget p).props "cx" =
      JSValue.vClassFn (classNames "HierarchicalMenu") ∧
    objGet (Widget p).props "cx" = objGet (Widget q).props "cx" ∧
    ∀ region, classNames "HierarchicalMenu" region =
      "ais-HierarchicalMenu-" ++ region :=
  ⟨rfl, rfl, fun _ => rfl⟩
